import Mathlib

/-!
Shallow embedding of the core of `looptrace-regionals-vis`
(`src/looptrace_regionals_vis/`): points, 3D bounding boxes and their
z-slice expansion (`bounding_box.py`, `point.py`), the filename
classification enums (`processing.py`, `reader.py`), the ROI variants and
their construction-time invariants (`roi.py`), and the directory probe and
layer builder of `reader.py`.

Modelling conventions:
* Finite floating-point coordinate values are modelled as rationals (`ℚ`);
  the special values NaN / ±infinity, which only the `Point3D` validation
  logic distinguishes, are modelled by the dedicated type `PyFloat`.
* Python functions that can raise are modelled as `Except String α`, the
  error payload being the exception message.
* Python `set[int]` is modelled as `Finset ℤ`; `str.split`, `int(...)`,
  `pathlib.Path.suffix` and list slicing are re-implemented below with
  Python's semantics.
-/

deriving instance DecidableEq for Except

/-- Python floating-point value: a finite rational, an infinity, or NaN.
Used by the `Point3D` validation logic of `point.py`. -/
inductive PyFloat where
  | finite (q : ℚ)
  | posInf
  | negInf
  | nan
deriving DecidableEq, Repr

/-- `math.isnan` -/
def PyFloat.isnanPy : PyFloat → Bool
  | .nan => true
  | _ => false

/-- `math.isinf` -/
def PyFloat.isinfPy : PyFloat → Bool
  | .posInf => true
  | .negInf => true
  | _ => false

/-- A fully validated point, as produced by a successful `Point3D.__post_init__`
(`point.py`). Fields are kept in the source order `z, y, x`. -/
structure Point3D where
  z : PyFloat
  y : PyFloat
  x : PyFloat
deriving DecidableEq, Repr

/-- `Point3D.__post_init__` (`point.py` lines 26-35): the type check always
passes here (the fields are floats by construction); then any-NaN is rejected,
then any-infinite. Returns the constructed point on success, the exception
message on failure. -/
def mkPoint3D (z y x : PyFloat) : Except String Point3D :=
  if z.isnanPy || y.isnanPy || x.isnanPy then
    .error "Cannot use a null numeric as a point coordinate!"
  else if z.isinfPy || y.isinfPy || x.isinfPy then
    .error "Cannot use an infinite value as a point coordinate!"
  else
    .ok { z := z, y := y, x := x }

/-- A 3D point with finite coordinates, as used inside a validated
bounding box (coordinates as rationals). -/
structure Point3Q where
  z : ℚ
  y : ℚ
  x : ℚ
deriving DecidableEq, Repr

/-- The field bundle of `BoundingBox3D` (`bounding_box.py` lines 64-72),
with finite coordinates. -/
structure BoundingBox3D where
  center : Point3Q
  z_min : ℚ
  z_max : ℚ
  y_min : ℚ
  y_max : ℚ
  x_min : ℚ
  x_max : ℚ
deriving DecidableEq, Repr

/-- `BoundingBox3D.__post_init__` (`bounding_box.py` lines 123-135): first the
per-axis ordering check (one combined failure), then the center-containment
check (one combined failure). -/
def BoundingBox3D.postInit (b : BoundingBox3D) : Except String Unit :=
  if b.x_min > b.x_max ∨ b.y_min > b.y_max ∨ b.z_min > b.z_max then
    .error "For each dimension, min must be no more than max!"
  else if b.center.z < b.z_min ∨ b.center.z > b.z_max
      ∨ b.center.y < b.y_min ∨ b.center.y > b.y_max
      ∨ b.center.x < b.x_min ∨ b.center.x > b.x_max then
    .error "For each dimension, center coordinate must be within min/max bounds!"
  else
    .ok ()

/-- A bounding box that passes `__post_init__`. -/
def BoundingBox3D.Valid (b : BoundingBox3D) : Prop :=
  b.postInit = .ok ()

/-- Construct a `BoundingBox3D` running `__post_init__`, as Python's dataclass
machinery does. -/
def mkBoundingBox3D (center : Point3Q) (z_min z_max y_min y_max x_min x_max : ℚ) :
    Except String BoundingBox3D :=
  match BoundingBox3D.postInit
      { center := center, z_min := z_min, z_max := z_max,
        y_min := y_min, y_max := y_max, x_min := x_min, x_max := x_max } with
  | .error e => .error e
  | .ok () =>
    .ok { center := center, z_min := z_min, z_max := z_max,
          y_min := y_min, y_max := y_max, x_min := x_min, x_max := x_max }

/-- Python's built-in `round` on a (finite) float: round half to even. -/
def pyRound (q : ℚ) : ℤ :=
  if q - ⌊q⌋ < 1/2 then ⌊q⌋
  else if 1/2 < q - ⌊q⌋ then ⌊q⌋ + 1
  else if ⌊q⌋ % 2 = 0 then ⌊q⌋ else ⌊q⌋ + 1

/-- The cached `_nearest_z_slice` attribute set at the end of
`BoundingBox3D.__post_init__` (`bounding_box.py` line 137): `round(self.center.z)`. -/
def BoundingBox3D.nearest_z_slice (b : BoundingBox3D) : ℤ :=
  pyRound b.center.z

/-- The integer z values visited by `iter_z_slices_nonnegative`:
Python `range(max(0, floor(self.z_min)), max(0, floor(self.z_max) + 1))`. -/
def BoundingBox3D.zSliceIndices (b : BoundingBox3D) : List ℤ :=
  (List.range (max 0 (⌊b.z_max⌋ + 1) - max 0 ⌊b.z_min⌋).toNat).map
    (fun (i : ℕ) => max 0 ⌊b.z_min⌋ + (i : ℤ))

/-- One yielded tuple of `iter_z_slices_nonnegative`: the four corner points
and the center flag. -/
structure ZSlice where
  q1 : Point3Q
  q2 : Point3Q
  q3 : Point3Q
  q4 : Point3Q
  is_center : Bool
deriving DecidableEq, Repr

/-- `BoundingBox3D.iter_z_slices_nonnegative` (`bounding_box.py` lines 139-149):
one tuple per integer z in `range(max(0, floor(z_min)), max(0, floor(z_max)+1))`,
with corners `q1=(z, y_min, x_max)`, `q2=(z, y_min, x_min)`, `q3=(z, y_max, x_min)`,
`q4=(z, y_max, x_max)` and the flag `z == self._nearest_z_slice`. -/
def BoundingBox3D.iter_z_slices_nonnegative (b : BoundingBox3D) : List ZSlice :=
  b.zSliceIndices.map (fun (z : ℤ) =>
    { q1 := { z := (z : ℚ), y := b.y_min, x := b.x_max }
      q2 := { z := (z : ℚ), y := b.y_min, x := b.x_min }
      q3 := { z := (z : ℚ), y := b.y_max, x := b.x_min }
      q4 := { z := (z : ℚ), y := b.y_max, x := b.x_max }
      is_center := decide (z = b.nearest_z_slice) })

instance (b : BoundingBox3D) : Decidable b.Valid :=
  match h : b.postInit with
  | .ok () => .isTrue (by simpa [BoundingBox3D.Valid] using h)
  | .error _ => .isFalse (by simp [BoundingBox3D.Valid, h])

/-- Concrete instantiation of the C1 theorem. -/
def sampleBox : BoundingBox3D :=
  { center := ⟨1/2, 1/2, 1/2⟩, z_min := -3/2, z_max := 5/2,
    y_min := 0, y_max := 1, x_min := 0, x_max := 1 }

/-! ## String utilities with Python semantics -/

/-- Helper for `pySplitChar`: split a character list at every occurrence of
`c`, keeping empty pieces, like Python's `str.split` with an explicit
separator. -/
def splitOnCharAux (c : Char) : List Char → List Char → List String
  | [], acc => [String.mk acc.reverse]
  | d :: rest, acc =>
    if d = c then String.mk acc.reverse :: splitOnCharAux c rest []
    else splitOnCharAux c rest (d :: acc)

/-- Python `s.split(c)` for a single-character separator `c` (empty pieces
kept; `"".split(c) == [""]`). -/
def pySplitChar (c : Char) (s : String) : List String :=
  splitOnCharAux c s.data []

/-- Python `s.endswith(t)`. -/
def strEndsWith (s t : String) : Bool :=
  List.isSuffixOf t.data s.data

/-! ## `ProcessingStep` and `ProcessingStatus` (`processing.py`) -/

/-- `ProcessingStep` (`processing.py` lines 16-38). -/
inductive ProcessingStep where
  | NucleiFiltration
  | ProximityFiltration
deriving DecidableEq, Repr

/-- The Python enum member name. -/
def ProcessingStep.pyName : ProcessingStep → String
  | .NucleiFiltration => "NucleiFiltration"
  | .ProximityFiltration => "ProximityFiltration"

/-- The Python enum member value. -/
def ProcessingStep.value : ProcessingStep → String
  | .NucleiFiltration => "nuclei_filtration"
  | .ProximityFiltration => "proximity_filtration"

/-- `ProcessingStep.filename_extension`. -/
def ProcessingStep.filename_extension : ProcessingStep → String
  | .NucleiFiltration => "nuclei_filtered"
  | .ProximityFiltration => "proximity_filtered"

/-- Members in declaration order, as Python iterates an `Enum`. -/
def ProcessingStep.members : List ProcessingStep :=
  [.NucleiFiltration, .ProximityFiltration]

/-- `ProcessingStep.from_string` (`processing.py` lines 32-38). -/
def ProcessingStep.from_string (s : String) : Option ProcessingStep :=
  ProcessingStep.members.find?
    (fun m => s == m.pyName || s == m.value || s == m.filename_extension)

/-- `ProcessingStatus` (`processing.py` lines 41-49). -/
inductive ProcessingStatus where
  | Unfiltered
  | ProximityFiltered
  | ProximityAndNucleiFiltered
deriving DecidableEq, Repr

/-- The Python enum member value: a tuple of processing steps. -/
def ProcessingStatus.value : ProcessingStatus → List ProcessingStep
  | .Unfiltered => []
  | .ProximityFiltered => [.ProximityFiltration]
  | .ProximityAndNucleiFiltered => [.ProximityFiltration, .NucleiFiltration]

/-- Members in declaration order. -/
def ProcessingStatus.members : List ProcessingStatus :=
  [.Unfiltered, .ProximityFiltered, .ProximityAndNucleiFiltered]

/-- `ProcessingStatus.from_filename` (`processing.py` lines 71-85): the chunk
before the first `.` must end with `_rois`; the last chunk must be exactly
`csv`; each middle chunk is parsed with `ProcessingStep.from_string` (possibly
to `None`), and the resulting tuple is compared against each member's value
(a tuple of steps, never containing `None`). -/
def ProcessingStatus.from_filename (fn : String) : Option ProcessingStatus :=
  if ¬ strEndsWith ((pySplitChar '.' fn).headD "") "_rois" = true then none
  else if (pySplitChar '.' fn).getLast? ≠ some "csv" then none
  else
    ProcessingStatus.members.find?
      (fun m => m.value.map some
        == (((pySplitChar '.' fn).drop 1).dropLast).map ProcessingStep.from_string)

/-! ## ROI variants (`roi.py`) -/

/-- The tagged union of ROI variants (`roi.py`). `timepoint` and `channel`
are numeric cell values (`Timepoint = int`, `Channel = int` carry no
validation in the source, and flow through unchecked). -/
inductive Roi where
  | mergeContributor (id : ℤ) (timepoint channel : ℚ) (bounding_box : BoundingBox3D)
      (merge_index : ℤ)
  | proximityRejected (id : ℤ) (timepoint channel : ℚ) (bounding_box : BoundingBox3D)
      (neighbors : Finset ℤ)
  | nonNuclear (timepoint channel : ℚ) (bounding_box : BoundingBox3D)
  | singleton (id : ℤ) (timepoint channel : ℚ) (bounding_box : BoundingBox3D)
      (traceId : ℤ) (trace_partners : Finset ℤ) (nucleus_number : ℤ)
  | merged (id : ℤ) (timepoint channel : ℚ) (bounding_box : BoundingBox3D)
      (contributors : Finset ℤ) (traceId : ℤ) (trace_partners : Finset ℤ)
      (nucleus_number : ℤ)
deriving DecidableEq

/-- `MergeContributorRoi.__post_init__` (`roi.py` lines 42-44). -/
def mkMergeContributorRoi (id : ℤ) (timepoint channel : ℚ)
    (bounding_box : BoundingBox3D) (merge_index : ℤ) : Except String Roi :=
  if id = merge_index then
    .error "A MergeContributorRoi's index can't equal its merge_index"
  else
    .ok (.mergeContributor id timepoint channel bounding_box merge_index)

/-- `ProximityRejectedRoi.__post_init__` (`roi.py` lines 57-65); the
set-type branch of the `match` always holds here, so only emptiness is
checked. -/
def mkProximityRejectedRoi (id : ℤ) (timepoint channel : ℚ)
    (bounding_box : BoundingBox3D) (neighbors : Finset ℤ) : Except String Roi :=
  if neighbors = ∅ then
    .error "Set of neighbors for ProximityRejectedRoi is empty"
  else
    .ok (.proximityRejected id timepoint channel bounding_box neighbors)

/-- `NonNuclearRoi` carries no `__post_init__` check. -/
def mkNonNuclearRoi (timepoint channel : ℚ) (bounding_box : BoundingBox3D) : Roi :=
  .nonNuclear timepoint channel bounding_box

/-- `SingletonRoi` carries no `__post_init__` check. -/
def mkSingletonRoi (id : ℤ) (timepoint channel : ℚ) (bounding_box : BoundingBox3D)
    (traceId : ℤ) (trace_partners : Finset ℤ) (nucleus_number : ℤ) : Roi :=
  .singleton id timepoint channel bounding_box traceId trace_partners nucleus_number

/-- `MergedRoi.__post_init__` (`roi.py` lines 118-130); the `isinstance(set)`
branch always holds here, then the size and self-reference checks run in
source order. -/
def mkMergedRoi (id : ℤ) (timepoint channel : ℚ) (bounding_box : BoundingBox3D)
    (contributors : Finset ℤ) (traceId : ℤ) (trace_partners : Finset ℤ)
    (nucleus_number : ℤ) : Except String Roi :=
  if contributors.card < 2 then
    .error ("A MergedRoi must have at least 2 contributors, got "
      ++ toString contributors.card)
  else if id ∈ contributors then
    .error "A MergedRoi's index can't be in its collection of contributors"
  else
    .ok (.merged id timepoint channel bounding_box contributors traceId
      trace_partners nucleus_number)

/-! ## Cell values and Python-style parsing helpers -/

/-- A value held in one CSV cell after the tabular read: an integer, a float,
a string, Python `None`, or a float NaN (how the table reader encodes a
missing value). -/
inductive CellValue where
  | int (n : ℤ)
  | float (q : ℚ)
  | str (s : String)
  | pynone
  | nan
deriving DecidableEq, Repr

/-- `pandas.isna` on a scalar cell. -/
def CellValue.isna : CellValue → Bool
  | .nan => true
  | .pynone => true
  | _ => false

/-- Python `str(...)` of a cell value (float rendering approximated with a
trailing `.0` for whole numbers, as Python prints floats). -/
def CellValue.pyStr : CellValue → String
  | .int n => toString n
  | .float q => if q.den = 1 then toString q.num ++ ".0" else toString q
  | .str s => s
  | .pynone => "None"
  | .nan => "nan"

/-- A CSV row as the association list produced by `record.to_dict()`. -/
abbrev Row : Type := List (String × CellValue)

/-- `record[key]`: raises `KeyError` when the column is absent. -/
def rowGet (row : Row) (key : String) : Except String CellValue :=
  match List.find? (fun kv => kv.1 == key) row with
  | some kv => .ok kv.2
  | none => .error ("KeyError: " ++ key)

/-- All-digit character run to a natural number. -/
def parseDigitsAux : List Char → ℕ → Option ℕ
  | [], acc => some acc
  | c :: rest, acc =>
    if c.isDigit then parseDigitsAux rest (10 * acc + (c.toNat - 48)) else none

/-- A non-empty all-digit character run to a natural number. -/
def parseDigits : List Char → Option ℕ
  | [] => none
  | l => parseDigitsAux l 0

/-- Optional sign followed by digits. -/
def pyIntOfChars : List Char → Option ℤ
  | '-' :: rest => (parseDigits rest).map (fun n => -(n : ℤ))
  | '+' :: rest => (parseDigits rest).map (fun n => (n : ℤ))
  | l => (parseDigits l).map (fun n => (n : ℤ))

/-- Python `int(s)`: surrounding whitespace stripped, optional sign, decimal
digits; anything else raises `ValueError`. -/
def pyInt (s : String) : Except String ℤ :=
  match pyIntOfChars ((s.data.dropWhile Char.isWhitespace).reverse.dropWhile
      Char.isWhitespace |>.reverse) with
  | some n => .ok n
  | none => .error ("invalid literal for int() with base 10: " ++ s)

/-- `_parse_neighbors` (`reader.py` lines 384-389): split the cell on single
spaces, parse every piece as an integer, and reject the cell when the values
are not pairwise distinct. -/
def parse_neighbors (raw_value : String) : Except String (Finset ℤ) :=
  match (pySplitChar ' ' raw_value).mapM pyInt with
  | .error e => .error e
  | .ok values =>
    if values.dedup.length = values.length then
      .ok values.toFinset
    else
      .error ("Repeated values are present among proximal neighbors: " ++ toString values)

/-- `_parse_roi_ids_field` (`reader.py` lines 453-469): an `int` cell gives a
singleton set; a `str` cell is split on single spaces and each piece parsed as
an integer, the results collected into a set (duplicates silently collapse); a
missing (`NaN`/`None`) cell gives the empty set; any other type raises. -/
def parse_roi_ids_field (row : Row) (key : String) : Except String (Finset ℤ) :=
  match rowGet row key with
  | .error e => .error e
  | .ok raw =>
    match raw with
    | .int n => .ok {n}
    | .str s =>
      match (pySplitChar ' ' s).mapM pyInt with
      | .error e => .error e
      | .ok values => .ok values.toFinset
    | v =>
      if v.isna then .ok (∅ : Finset ℤ)
      else .error ("Got unexpected type from " ++ key)

/-! ## `InputFileContentType` and the directory probe (`reader.py`) -/

/-- `InputFileContentType` (`reader.py` lines 43-48). -/
inductive InputFileContentType where
  | MergeContributors
  | ProximityRejects
  | NucleiLabeled
deriving DecidableEq, Repr

/-- The Python enum member value (a filename suffix). -/
def InputFileContentType.value : InputFileContentType → String
  | .MergeContributors => ".merge_contributors.csv"
  | .ProximityRejects => ".proximity_rejected.csv"
  | .NucleiLabeled => ".with_trace_ids.csv"

/-- Members in declaration order. -/
def InputFileContentType.members : List InputFileContentType :=
  [.MergeContributors, .ProximityRejects, .NucleiLabeled]

/-- `InputFileContentType.from_filename` (`reader.py` lines 50-63). -/
def InputFileContentType.from_filename (fn : String) : Option InputFileContentType :=
  if ¬ strEndsWith ((pySplitChar '.' fn).headD "") "_rois" = true then none
  else if (pySplitChar '.' fn).getLast? ≠ some "csv" then none
  else InputFileContentType.members.find? (fun m => strEndsWith fn m.value)

/-- `pathlib.Path.suffix` of a file name: the final `.ext`, or `""` when the
name has no dot, ends with a dot, or the only dot is the leading character. -/
def pathSuffix (name : String) : String :=
  match pySplitChar '.' name with
  | [] => ""
  | [_] => ""
  | parts =>
    match parts.getLast? with
    | some last =>
      if last = "" then ""
      else if parts = ["", last] then ""
      else "." ++ last
    | none => ""

/-- A directory entry as seen by `Path.iterdir`: its name, whether it is a
regular file, and the parsed table of a data file: `none` models a file whose
tabular read raises `EmptyDataError`, `some rows` a successfully read table.
(Non-CSV content never gets read, so its table is irrelevant.) -/
structure DirEntry where
  name : String
  is_file : Bool
  table : Option (List Row)
deriving DecidableEq

/-- `_is_plausible_input_file` (`reader.py` lines 305-306): a regular file
with `.csv` suffix whose part before the first dot ends with `_rois`. -/
def is_plausible_input_file (e : DirEntry) : Bool :=
  e.is_file && pathSuffix e.name == ".csv"
    && strEndsWith ((pySplitChar '.' e.name).headD "") "_rois"

/-- The classification results counted by `get_reader`'s probe
(`reader.py` lines 93-95): one entry per plausible input file, `none` included
for unclassifiable files. -/
def probeKinds (entries : List DirEntry) : List (Option InputFileContentType) :=
  (entries.filter is_plausible_input_file).map
    (fun e => InputFileContentType.from_filename e.name)

/-- The `any(n != 1 for n in count_by_kind.values())` test (`reader.py`
line 96), phrased positively: every counted key has multiplicity exactly 1. -/
def probe_ok (entries : List DirEntry) : Bool :=
  (probeKinds entries).all (fun k => (probeKinds entries).count k == 1)

/-! ## Row parsing (`reader.py`) -/

/-- Extract a numeric cell as a rational. A non-numeric or missing cell fails
the numeric validation that the source applies downstream (the `Point3D` type
check, the comparisons in `BoundingBox3D.__post_init__`), modelled here as a
parse failure at extraction. -/
def cellNum (v : CellValue) : Except String ℚ :=
  match v with
  | .int n => .ok (n : ℚ)
  | .float q => .ok q
  | _ => .error "Value of each field of point must be floating-point"

/-- Extract an integer-typed cell (ROI ids, nucleus numbers, trace ids). -/
def cellInt (v : CellValue) : Except String ℤ :=
  match v with
  | .int n => .ok n
  | _ => .error "expected an integer cell"

/-- `_parse_time_channel_box_trio` (`reader.py` lines 472-489): pops the
timepoint and channel (no conversion), then evaluates the keyword-argument
expressions of the `BoundingBox3D(...)` call in source order — the
`Point3D(z=record["zc"], y=record["yc"], x=record["xc"])` center (lookups
plus `Point3D` validation), then the six bound-column lookups — and then
performs the call itself. That call passes the keywords `zMin=, zMax=, yMin=,
yMax=, xMin=, xMax=`, but the `BoundingBox3D` dataclass of this source
declares the fields `z_min, z_max, y_min, y_max, x_min, x_max`
(`bounding_box.py` lines 64-72), so the call raises
`TypeError: ... got an unexpected keyword argument 'zMin'` unconditionally:
this function can never return a box. -/
def parse_time_channel_box_trio (row : Row) :
    Except String (ℚ × ℚ × BoundingBox3D) := do
  let _time ← rowGet row "timepoint"
  let _channel ← rowGet row "spotChannel"
  let _zc ← rowGet row "zc" >>= cellNum
  let _yc ← rowGet row "yc" >>= cellNum
  let _xc ← rowGet row "xc" >>= cellNum
  let _zmin ← rowGet row "zMin"
  let _zmax ← rowGet row "zMax"
  let _ymin ← rowGet row "yMin"
  let _ymax ← rowGet row "yMax"
  let _xmin ← rowGet row "xMin"
  let _xmax ← rowGet row "xMax"
  Except.error
    "TypeError: BoundingBox3D.__init__() got an unexpected keyword argument 'zMin'"

/-- `_parse_merge_contributor_record` (`reader.py` lines 392-412). -/
def parse_merge_contributor_record (row : Row) : Except String Roi := do
  let index ← rowGet row "index" >>= cellInt
  let rawMerge ← rowGet row "mergeOutput"
  let merge_index ←
    match rawMerge with
    | .int n => Except.ok n
    | .str s => pyInt s
    | _ => Except.error "Got unexpected type, not str or int, from mergeOutput"
  let (time, channel, box) ← parse_time_channel_box_trio row
  mkMergeContributorRoi index time channel box merge_index

/-- The `maybe_nuc_num` computation of `_parse_nucleus_labeled_record`
(`reader.py` lines 433-435): `None` when the cell equals 0, otherwise a
`NucleusNumber`, which validates strict positivity (`types.py`). -/
def parse_maybe_nuc_num (row : Row) : Except String (Option ℤ) :=
  match rowGet row "nucleusNumber" with
  | .error e => .error e
  | .ok v =>
    match cellInt v with
    | .error e => .error e
    | .ok n =>
      if n = 0 then .ok none
      else if n < 1 then
        .error "A nucleus number must be a strictly positive integer"
      else .ok (some n)

/-- The `id_and_contribs` computation of `_parse_nucleus_labeled_record`
(`reader.py` lines 438-446): `None` when the `mergePartners` cell is Python
`None`, the empty string, or NA; otherwise the row's `index` paired with the
parsed partner set. -/
def parse_id_and_contribs (row : Row) : Except String (Option (ℤ × Finset ℤ)) :=
  match rowGet row "mergePartners" with
  | .error e => .error e
  | .ok raw =>
    if raw = .pynone ∨ raw = .str "" ∨ raw.isna = true then .ok none
    else
      match rowGet row "index" with
      | .error e => .error e
      | .ok idv =>
        match cellInt idv with
        | .error e => .error e
        | .ok roi_id =>
          match parse_roi_ids_field row "mergePartners" with
          | .error e => .error e
          | .ok contribs => .ok (some (roi_id, contribs))

/-- The tuple returned by `_parse_nucleus_labeled_record`
(`reader.py` lines 415-450). -/
structure NucleusLabeledRecord where
  roiId : ℤ
  time : ℚ
  channel : ℚ
  box : BoundingBox3D
  traceId : ℤ
  trace_partners : Finset ℤ
  maybe_nuc_num : Option ℤ
  id_and_contribs : Option (ℤ × Finset ℤ)
deriving DecidableEq

/-- `_parse_nucleus_labeled_record` (`reader.py` lines 415-450), fields in
source evaluation order. -/
def parse_nucleus_labeled_record (row : Row) : Except String NucleusLabeledRecord := do
  let roiId ← rowGet row "index" >>= cellInt
  let traceId ← rowGet row "traceId" >>= cellInt
  let trace_partners ← parse_roi_ids_field row "tracePartners"
  let maybe_nuc_num ← parse_maybe_nuc_num row
  let id_and_contribs ← parse_id_and_contribs row
  let (time, channel, box) ← parse_time_channel_box_trio row
  pure { roiId := roiId, time := time, channel := channel, box := box,
         traceId := traceId, trace_partners := trace_partners,
         maybe_nuc_num := maybe_nuc_num, id_and_contribs := id_and_contribs }

/-- The per-row `match` of `_parse_non_contributor_non_proximal_rois`
(`reader.py` lines 323-350), cases in source order. -/
def build_nucleus_labeled_roi (r : NucleusLabeledRecord) : Except String Roi :=
  match r.maybe_nuc_num, r.id_and_contribs with
  | none, _ => .ok (mkNonNuclearRoi r.time r.channel r.box)
  | some nuc_num, none =>
    .ok (mkSingletonRoi r.roiId r.time r.channel r.box r.traceId
      r.trace_partners nuc_num)
  | some nuc_num, some (main_id, contrib_ids) =>
    mkMergedRoi main_id r.time r.channel r.box contrib_ids r.traceId
      r.trace_partners nuc_num

/-- One row of a nucleus-labeled file to a ROI. -/
def parse_nucleus_labeled_row (row : Row) : Except String Roi := do
  let r ← parse_nucleus_labeled_record row
  build_nucleus_labeled_roi r

/-- `_parse_non_contributor_non_proximal_rois` (`reader.py` lines 309-352):
an empty data file degrades to no ROIs. -/
def parse_non_contributor_non_proximal_rois (table : Option (List Row)) :
    Except String (List Roi) :=
  match table with
  | none => .ok []
  | some rows => rows.mapM parse_nucleus_labeled_row

/-- One row of `_parse_proximity_rejects_table` (`reader.py` lines 371-381):
the id, the duplicate-checked neighbor set parsed from the stringified
`tooCloseRois` cell, and the time/channel/box trio. -/
def parse_proximity_rejects_row (row : Row) :
    Except String (ℤ × Finset ℤ × ℚ × ℚ × BoundingBox3D) := do
  let i ← rowGet row "index" >>= cellInt
  let nsRaw ← rowGet row "tooCloseRois"
  let ns ← parse_neighbors nsRaw.pyStr
  let (t, c, box) ← parse_time_channel_box_trio row
  pure (i, ns, t, c, box)

/-- `_parse_proximity_rejects` (`reader.py` lines 360-368): an empty data file
degrades to no records. -/
def parse_proximity_rejects (table : Option (List Row)) :
    Except String (List (ℤ × Finset ℤ × ℚ × ℚ × BoundingBox3D)) :=
  match table with
  | none => .ok []
  | some rows => rows.mapM parse_proximity_rejects_row

/-! ## Layer building (`reader.py` `build_layers`) -/

/-- Display colors (`colors.py`). -/
def IBM_BLUE : String := "#648FFF"

def IBM_PURPLE : String := "#785EF0"

def IBM_PINK : String := "#DC267F"

def IBM_ORANGE : String := "#FE6100"

def IBM_YELLOW : String := "#FFB000"

/-- The five concrete ROI classes, used as grouping keys (`type(r)`). -/
inductive RoiTag where
  | mergeContributor
  | proximityRejected
  | nonNuclear
  | singleton
  | merged
deriving DecidableEq, Repr

/-- `type(r)` of a ROI. -/
def Roi.tag : Roi → RoiTag
  | .mergeContributor .. => .mergeContributor
  | .proximityRejected .. => .proximityRejected
  | .nonNuclear .. => .nonNuclear
  | .singleton .. => .singleton
  | .merged .. => .merged

/-- `roi_type.__name__`. -/
def RoiTag.pyName : RoiTag → String
  | .mergeContributor => "MergeContributorRoi"
  | .proximityRejected => "ProximityRejectedRoi"
  | .nonNuclear => "NonNuclearRoi"
  | .singleton => "SingletonRoi"
  | .merged => "MergedRoi"

/-- The per-class `color` property (`roi.py`). -/
def Roi.color : Roi → String
  | .mergeContributor .. => IBM_PURPLE
  | .proximityRejected .. => IBM_BLUE
  | .nonNuclear .. => IBM_ORANGE
  | .singleton .. => IBM_PINK
  | .merged .. => IBM_YELLOW

/-- `r.timepoint` (every variant has one). -/
def Roi.timepoint : Roi → ℚ
  | .mergeContributor _ t _ _ _ => t
  | .proximityRejected _ t _ _ _ => t
  | .nonNuclear t _ _ => t
  | .singleton _ t _ _ _ _ _ => t
  | .merged _ t _ _ _ _ _ _ => t

/-- `r.channel` (every variant has one). -/
def Roi.channel : Roi → ℚ
  | .mergeContributor _ _ c _ _ => c
  | .proximityRejected _ _ c _ _ => c
  | .nonNuclear _ c _ => c
  | .singleton _ _ c _ _ _ _ => c
  | .merged _ _ c _ _ _ _ _ => c

/-- `r.bounding_box` (every variant has one). -/
def Roi.bounding_box : Roi → BoundingBox3D
  | .mergeContributor _ _ _ b _ => b
  | .proximityRejected _ _ _ b _ => b
  | .nonNuclear _ _ b => b
  | .singleton _ _ _ b _ _ _ => b
  | .merged _ _ _ b _ _ _ _ => b

/-- `r.id`, defaulting to 0 on the (id-less) non-nuclear variant; the layer
builder only reads it on variants that have an id. -/
def Roi.idOrZero : Roi → ℤ
  | .mergeContributor i _ _ _ _ => i
  | .proximityRejected i _ _ _ _ => i
  | .nonNuclear _ _ _ => 0
  | .singleton i _ _ _ _ _ _ => i
  | .merged i _ _ _ _ _ _ _ => i

/-- `r.merge_index`, defaulting to 0 off the merge-contributor variant. -/
def Roi.merge_indexOrZero : Roi → ℤ
  | .mergeContributor _ _ _ _ m => m
  | _ => 0

/-- `r.traceId.get`, defaulting to 0 on variants without a trace id. -/
def Roi.traceIdOrZero : Roi → ℤ
  | .singleton _ _ _ _ tid _ _ => tid
  | .merged _ _ _ _ _ tid _ _ => tid
  | _ => 0

/-- `r.neighbors`, defaulting to the empty set off the proximity variant. -/
def Roi.neighborsOrEmpty : Roi → Finset ℤ
  | .proximityRejected _ _ _ _ ns => ns
  | _ => ∅

/-- Number of z-slices a ROI expands to. -/
def Roi.num_slices (r : Roi) : ℕ :=
  r.bounding_box.iter_z_slices_nonnegative.length

/-- Python list slicing `l[:k]` (a negative `k` keeps all but the last `|k|`
elements). -/
def pyTake {α : Type} (k : ℤ) (l : List α) : List α :=
  if 0 ≤ k then l.take k.toNat else l.take ((l.length : ℤ) + k).toNat

/-- `_get_proximity_rejects_neighbors_text` (`reader.py` lines 293-297). -/
def proximity_rejects_neighbors_text (neighbors : Finset ℤ) (limit : ℤ) : String :=
  String.intercalate "," ((pyTake limit (neighbors.sort (· ≤ ·))).map toString)
    ++ (if 0 < (neighbors.card : ℤ) - (pyTake limit (neighbors.sort (· ≤ ·))).length
        then "," ++ "+"
          ++ toString ((neighbors.card : ℤ) - (pyTake limit (neighbors.sort (· ≤ ·))).length)
        else "")

/-- One value of a Napari text feature column. -/
inductive FeatureValue where
  | int (n : ℤ)
  | str (s : String)
deriving DecidableEq

/-- The `text_properties` dict (`reader.py` lines 274-278). -/
structure TextProps where
  string : String
  size : ℕ
  color : String
deriving DecidableEq

/-- The layer parameter dict assembled in `build_layers` (`reader.py`
lines 185-283): the four unconditional keys, plus the `features` and `text`
keys that are only added when at least one feature was built. -/
structure LayerParams where
  name : String
  shape_type : List String
  face_color : String
  edge_color : String
  features : List (String × List FeatureValue)
  text : Option TextProps
deriving DecidableEq

/-- One full data layer `(corners, params, "shapes")`. -/
structure Layer where
  data : List (List (List ℚ))
  params : LayerParams
  layer_type : String
deriving DecidableEq

/-- The externally configured settings read by `build_layers`
(`settings.py`): whether to annotate singleton ROI ids, and the
already-resolved maximum number of proximity partners to display (0 when the
proximity annotation toggle is off). -/
structure Env where
  display_roi_id_for_singletons : Bool
  max_proximity_partners : ℤ

/-- The corner rows contributed by one ROI (`reader.py` lines 165-180): one
4-point polygon per z-slice, each point `[timepoint, channel, z, y, x]`. -/
def corners_of_roi (r : Roi) : List (List (List ℚ)) :=
  r.bounding_box.iter_z_slices_nonnegative.map (fun s =>
    [[r.timepoint, r.channel, s.q1.z, s.q1.y, s.q1.x],
     [r.timepoint, r.channel, s.q2.z, s.q2.y, s.q2.x],
     [r.timepoint, r.channel, s.q3.z, s.q3.y, s.q3.x],
     [r.timepoint, r.channel, s.q4.z, s.q4.y, s.q4.x]])

/-- The shape tags contributed by one ROI (`reader.py` line 181). -/
def shapes_of_roi (r : Roi) : List String :=
  r.bounding_box.iter_z_slices_nonnegative.map
    (fun s => if s.is_center then "rectangle" else "ellipse")

/-- The `features` dict and `format_string_parts` list built per bucket
(`reader.py` lines 193-269), in source order. Every feature column repeats a
ROI's value once per z-slice. -/
def features_and_format (env : Env) (tag : RoiTag) (rois : List Roi) :
    List (String × List FeatureValue) × List String :=
  if tag = .mergeContributor ∨ tag = .merged ∨ tag = .singleton then
    let mergePart : List (String × List FeatureValue) × List String :=
      if tag = .mergeContributor ∨ tag = .merged then
        ([("mergeId", rois.flatMap (fun r => List.replicate r.num_slices
            (FeatureValue.int (if tag = .merged then r.idOrZero else r.merge_indexOrZero))))],
         ["i=\x7bmergeId\x7d"])
      else ([], [])
    let tracePart : List (String × List FeatureValue) × List String :=
      if tag = .merged ∨ tag = .singleton then
        ([("traceId", rois.flatMap (fun r => List.replicate r.num_slices
            (FeatureValue.int r.traceIdOrZero)))],
         ["t=\x7btraceId\x7d"])
      else ([], [])
    let roiIdPart : List (String × List FeatureValue) × List String :=
      if tag = .singleton ∧ env.display_roi_id_for_singletons = true then
        ([("roiId", rois.flatMap (fun r => List.replicate r.num_slices
            (FeatureValue.int r.idOrZero)))],
         ["i=\x7broiId\x7d"])
      else ([], [])
    (mergePart.1 ++ tracePart.1 ++ roiIdPart.1, mergePart.2 ++ tracePart.2 ++ roiIdPart.2)
  else if tag = .proximityRejected then
    if env.max_proximity_partners = 0 then ([], [])
    else
      ([("proximityAnnotation", rois.flatMap (fun r => List.replicate r.num_slices
          (FeatureValue.str (toString r.idOrZero ++ ": "
            ++ proximity_rejects_neighbors_text r.neighborsOrEmpty
                env.max_proximity_partners))))],
       ["\x7bproximityAnnotation\x7d"])
  else ([], [])

/-- One assembled layer for a non-empty bucket (`reader.py` lines 157-286). -/
def build_layer (env : Env) (tag : RoiTag) (rois : List Roi)
    (layer_color : String) : Layer :=
  { data := rois.flatMap corners_of_roi,
    params :=
      { name := tag.pyName,
        shape_type := rois.flatMap shapes_of_roi,
        face_color := "transparent",
        edge_color := layer_color,
        features := (features_and_format env tag rois).1,
        text :=
          if (features_and_format env tag rois).1.isEmpty then none
          else some
            { string := String.intercalate ", " (features_and_format env tag rois).2,
              size := 8,
              color := layer_color } },
    layer_type := "shapes" }

/-- Insert a ROI into the per-type buckets, preserving first-seen key order —
`rois_by_type.setdefault(type(r), []).append(r)` (`reader.py` line 139). -/
def insertIntoBuckets (acc : List (RoiTag × List Roi)) (r : Roi) :
    List (RoiTag × List Roi) :=
  if acc.any (fun b => b.1 == r.tag) then
    acc.map (fun b => if b.1 == r.tag then (b.1, b.2 ++ [r]) else b)
  else acc ++ [(r.tag, [r])]

/-- Group parsed ROIs by concrete class in first-seen order. -/
def rois_by_type (rois : List Roi) : List (RoiTag × List Roi) :=
  rois.foldl insertIntoBuckets []

/-- The `file_by_kind` dict built at the start of `build_layers` (`reader.py`
lines 105-115): plausible files in directory order, skipping unclassifiable
ones, failing on a repeated kind (the source raises `KeyError`). -/
def file_by_kind_aux : List DirEntry → List (InputFileContentType × DirEntry) →
    Except String (List (InputFileContentType × DirEntry))
  | [], acc => .ok acc
  | e :: rest, acc =>
    match InputFileContentType.from_filename e.name with
    | none => file_by_kind_aux rest acc
    | some k =>
      if acc.any (fun p => p.1 == k) then
        .error "Data kind already found"
      else file_by_kind_aux rest (acc ++ [(k, e)])

/-- `file_by_kind` over the plausible files of a directory listing. -/
def file_by_kind (entries : List DirEntry) :
    Except String (List (InputFileContentType × DirEntry)) :=
  file_by_kind_aux (entries.filter is_plausible_input_file) []

/-- The ROI buckets parsed from one classified file (`reader.py`
lines 120-154): merge-contributor and proximity-reject files give a single
bucket (possibly empty), nucleus-labeled files are grouped per row class. -/
def bucketsOfFile (ke : InputFileContentType × DirEntry) :
    Except String (List (RoiTag × List Roi)) :=
  match ke.1 with
  | .MergeContributors =>
    match ke.2.table with
    | none => .ok [(RoiTag.mergeContributor, [])]
    | some rows =>
      match rows.mapM parse_merge_contributor_record with
      | .error e => .error e
      | .ok rs => .ok [(RoiTag.mergeContributor, rs)]
  | .NucleiLabeled =>
    match parse_non_contributor_non_proximal_rois ke.2.table with
    | .error e => .error e
    | .ok rois => .ok (rois_by_type rois)
  | .ProximityRejects =>
    match parse_proximity_rejects ke.2.table with
    | .error e => .error e
    | .ok tuples =>
      match tuples.mapM (fun t =>
          mkProximityRejectedRoi t.1 t.2.2.1 t.2.2.2.1 t.2.2.2.2 t.2.1) with
      | .error e => .error e
      | .ok rs => .ok [(RoiTag.proximityRejected, rs)]

/-- Emit one layer per non-empty bucket (`reader.py` lines 157-162: an empty
bucket's `rois[0].color` raises `IndexError`, which is caught and the bucket
skipped). -/
def layers_of_buckets (env : Env) (buckets : List (RoiTag × List Roi)) : List Layer :=
  buckets.filterMap (fun b =>
    match b.2 with
    | [] => none
    | r :: _ => some (build_layer env b.1 b.2 r.color))

/-- `build_layers` (`reader.py` lines 103-288): classify the plausible files,
parse each into ROI buckets, and emit the layers file by file. -/
def build_layers (env : Env) (entries : List DirEntry) : Except String (List Layer) :=
  match file_by_kind entries with
  | .error e => .error e
  | .ok fbk =>
    match fbk.mapM bucketsOfFile with
    | .error e => .error e
    | .ok bucketLists => .ok (bucketLists.map (layers_of_buckets env)).flatten

/-- `get_reader` (`reader.py` lines 76-100), restricted to an argument that is
an existing directory with listing `entries` (a non-`Path` argument or a
non-directory path returns `None` before the listing is examined): the probe
counts the classifications of the plausible input files and refuses to return
a reader unless every counted category, the unclassifiable one included, has
exactly one file. -/
def get_reader (entries : List DirEntry) :
    Option (Env → List DirEntry → Except String (List Layer)) :=
  if probe_ok entries = true then some build_layers else none

/-! ## Concrete directories used by witnesses -/

/-- A merge-contributors data file (empty table). -/
def mcFile : DirEntry :=
  { name := "P0001_rois.merge_contributors.csv", is_file := true, table := none }

/-- A second merge-contributors data file. -/
def mcFile2 : DirEntry :=
  { name := "P0002_rois.merge_contributors.csv", is_file := true, table := none }

/-- A proximity-rejects data file (empty table). -/
def prFile : DirEntry :=
  { name := "P0001_rois.proximity_rejected.csv", is_file := true, table := none }

/-- A nuclei-labeled data file (empty table). -/
def nlFile : DirEntry :=
  { name := "P0001_rois.with_trace_ids.csv", is_file := true, table := none }

/-- A plausible input file that classifies to no content type. -/
def uncFile1 : DirEntry :=
  { name := "P0001_rois.csv", is_file := true, table := none }

/-- Another plausible input file that classifies to no content type. -/
def uncFile2 : DirEntry :=
  { name := "P0001_filler_rois.csv", is_file := true, table := none }

/-- One file of each recognized content type. -/
def fullDir : List DirEntry := [mcFile, prFile, nlFile]

/-- Only a merge-contributors file: both other content types are missing. -/
def soloMergeDir : List DirEntry := [mcFile]

/-- Two files of the same content type. -/
def dupDir : List DirEntry := [mcFile, mcFile2]

/-- Two unclassifiable plausible files alongside one file of each recognized
content type. -/
def uncPairDir : List DirEntry := [uncFile1, uncFile2, mcFile, prFile, nlFile]

/-- A complete nucleus-labeled row (every mandatory column present, numeric
cells well-formed, `nucleusNumber = 0`): the concrete failing input at which
the nucleus-labeled row parse hits the `BoundingBox3D` keyword `TypeError`. -/
def nucRow0 : Row :=
  [("index", .int 7), ("traceId", .int 3), ("tracePartners", .nan),
   ("nucleusNumber", .int 0), ("mergePartners", .nan),
   ("timepoint", .int 16), ("spotChannel", .int 0),
   ("zc", .int 1), ("yc", .int 1), ("xc", .int 1),
   ("zMin", .int 0), ("zMax", .int 2), ("yMin", .int 0), ("yMax", .int 2),
   ("xMin", .int 0), ("xMax", .int 2)]

/-! ## Lemmas and claim theorems -/

/-- Bounds extracted from a valid box. -/
lemma BoundingBox3D.valid_iff (b : BoundingBox3D) :
    b.Valid ↔
      (b.x_min ≤ b.x_max ∧ b.y_min ≤ b.y_max ∧ b.z_min ≤ b.z_max) ∧
      (b.z_min ≤ b.center.z ∧ b.center.z ≤ b.z_max ∧
       b.y_min ≤ b.center.y ∧ b.center.y ≤ b.y_max ∧
       b.x_min ≤ b.center.x ∧ b.center.x ≤ b.x_max) := by
  unfold BoundingBox3D.Valid BoundingBox3D.postInit
  split_ifs with h1 h2
  · simp only [reduceCtorEq, false_iff]
    rintro ⟨⟨hx, hy, hz⟩, -⟩
    rcases h1 with h1 | h1 | h1 <;> linarith
  · simp only [reduceCtorEq, false_iff]
    rintro ⟨-, hz1, hz2, hy1, hy2, hx1, hx2⟩
    rcases h2 with h2 | h2 | h2 | h2 | h2 | h2 <;> linarith
  · push_neg at h1 h2
    simp only [true_iff]
    exact ⟨⟨h1.1, h1.2.1, h1.2.2⟩, h2.1, h2.2.1, h2.2.2.1, h2.2.2.2.1, h2.2.2.2.2.1,
      h2.2.2.2.2.2⟩

/-- `pyRound` returns either the floor or the floor plus one. -/
lemma pyRound_eq_floor_or_succ (q : ℚ) : pyRound q = ⌊q⌋ ∨ pyRound q = ⌊q⌋ + 1 := by
  unfold pyRound
  split_ifs <;> simp

lemma floor_le_pyRound (q : ℚ) : ⌊q⌋ ≤ pyRound q := by
  rcases pyRound_eq_floor_or_succ q with h | h <;> omega

lemma BoundingBox3D.mem_zSliceIndices (b : BoundingBox3D) (t : ℤ) :
    t ∈ b.zSliceIndices ↔
      max 0 ⌊b.z_min⌋ ≤ t ∧ t < max 0 (⌊b.z_max⌋ + 1) := by
  unfold BoundingBox3D.zSliceIndices
  simp only [List.mem_map, List.mem_range]
  constructor
  · rintro ⟨i, hi, rfl⟩
    omega
  · rintro ⟨h1, h2⟩
    exact ⟨(t - max 0 ⌊b.z_min⌋).toNat, by omega, by omega⟩

lemma BoundingBox3D.zSliceIndices_nodup (b : BoundingBox3D) : b.zSliceIndices.Nodup := by
  unfold BoundingBox3D.zSliceIndices
  exact List.Nodup.map (fun i j h => by omega) (List.nodup_range _)

lemma length_filter_eq_ite_of_nodup (l : List ℤ) (t : ℤ) (h : l.Nodup) :
    (l.filter (fun z => decide (z = t))).length = if t ∈ l then 1 else 0 := by
  induction l with
  | nil => simp
  | cons a l ih =>
    simp only [List.nodup_cons] at h
    by_cases hat : a = t
    · subst hat
      simp [List.filter_cons, ih h.2, h.1]
    · simp [List.filter_cons, hat, ih h.2, Ne.symm hat]

lemma BoundingBox3D.filter_center_length (b : BoundingBox3D) :
    (b.iter_z_slices_nonnegative.filter (fun s => s.is_center)).length
      = (b.zSliceIndices.filter (fun z => decide (z = b.nearest_z_slice))).length := by
  unfold BoundingBox3D.iter_z_slices_nonnegative
  generalize b.zSliceIndices = l
  induction l with
  | nil => simp
  | cons a l ih =>
    by_cases h : a = b.nearest_z_slice <;>
      simp [List.filter_cons, h, ih]

/-- **C1.** For every valid `BoundingBox3D` whose `z_min` and `z_max` lie in
`[-50, 50]`, the number of tuples produced by `iter_z_slices_nonnegative`
equals `max(0, floor(z_max)+1) - max(0, floor(z_min))`. -/
theorem iter_z_slices_nonnegative_count (b : BoundingBox3D) (hv : b.Valid)
    (hzlo : -50 ≤ b.z_min) (hzhi : b.z_min ≤ 50)
    (hZlo : -50 ≤ b.z_max) (hZhi : b.z_max ≤ 50) :
    (b.iter_z_slices_nonnegative.length : ℤ)
      = max 0 (⌊b.z_max⌋ + 1) - max 0 ⌊b.z_min⌋ := by
  have hzz : b.z_min ≤ b.z_max := ((b.valid_iff).mp hv).1.2.2
  have hf : ⌊b.z_min⌋ ≤ ⌊b.z_max⌋ := Int.floor_le_floor hzz
  unfold BoundingBox3D.iter_z_slices_nonnegative BoundingBox3D.zSliceIndices
  simp only [List.length_map, List.length_range]
  omega

lemma sampleBox_valid : sampleBox.Valid := by
  rw [BoundingBox3D.valid_iff]
  norm_num [sampleBox]

theorem iter_z_slices_nonnegative_count_witness :
    sampleBox.Valid ∧ (-50 ≤ sampleBox.z_min) ∧ (sampleBox.z_min ≤ 50)
      ∧ (-50 ≤ sampleBox.z_max) ∧ (sampleBox.z_max ≤ 50)
      ∧ (sampleBox.iter_z_slices_nonnegative.length : ℤ)
          = max 0 (⌊sampleBox.z_max⌋ + 1) - max 0 ⌊sampleBox.z_min⌋ :=
  ⟨sampleBox_valid, by norm_num [sampleBox], by norm_num [sampleBox], by norm_num [sampleBox],
   by norm_num [sampleBox],
   iter_z_slices_nonnegative_count sampleBox sampleBox_valid (by norm_num [sampleBox])
     (by norm_num [sampleBox]) (by norm_num [sampleBox]) (by norm_num [sampleBox])⟩

/-- **C2.** For every valid `BoundingBox3D`, at most one tuple of
`iter_z_slices_nonnegative` has its `is_center` flag true; the count of
center-flagged tuples is 0 if `round(center.z) < 0` or
`round(center.z) > floor(z_max)`, and exactly 1 otherwise. -/
theorem center_flag_count (b : BoundingBox3D) (hv : b.Valid) :
    ((b.iter_z_slices_nonnegative.filter (fun s => s.is_center)).length
        = if b.nearest_z_slice < 0 ∨ ⌊b.z_max⌋ < b.nearest_z_slice then 0 else 1)
      ∧ (b.iter_z_slices_nonnegative.filter (fun s => s.is_center)).length ≤ 1 := by
  have hzc : b.z_min ≤ b.center.z := ((b.valid_iff).mp hv).2.1
  have h1 : ⌊b.z_min⌋ ≤ b.nearest_z_slice :=
    le_trans (Int.floor_le_floor hzc) (floor_le_pyRound _)
  have hmain :
      (b.iter_z_slices_nonnegative.filter (fun s => s.is_center)).length
        = if b.nearest_z_slice < 0 ∨ ⌊b.z_max⌋ < b.nearest_z_slice then 0 else 1 := by
    rw [b.filter_center_length,
      length_filter_eq_ite_of_nodup _ _ b.zSliceIndices_nodup]
    by_cases hmem : b.nearest_z_slice ∈ b.zSliceIndices
    · rw [if_pos hmem]
      rw [b.mem_zSliceIndices] at hmem
      rw [if_neg (by omega)]
    · rw [if_neg hmem]
      rw [b.mem_zSliceIndices] at hmem
      rw [if_pos (by omega)]
  exact ⟨hmain, by rw [hmain]; split_ifs <;> omega⟩

theorem center_flag_count_witness :
    sampleBox.Valid
      ∧ ((sampleBox.iter_z_slices_nonnegative.filter (fun s => s.is_center)).length
          = if sampleBox.nearest_z_slice < 0 ∨ ⌊sampleBox.z_max⌋ < sampleBox.nearest_z_slice
            then 0 else 1)
      ∧ (sampleBox.iter_z_slices_nonnegative.filter (fun s => s.is_center)).length ≤ 1 :=
  ⟨sampleBox_valid, (center_flag_count sampleBox sampleBox_valid).1,
   (center_flag_count sampleBox sampleBox_valid).2⟩

/-- **C7.** Constructing a `BoundingBox3D` with any inverted axis (min > max)
always fails with exactly the message
"For each dimension, min must be no more than max!", and never with the
containment message, even when the center also lies outside the bounds. -/
theorem inverted_bounds_message (center : Point3Q)
    (z_min z_max y_min y_max x_min x_max : ℚ)
    (h : x_min > x_max ∨ y_min > y_max ∨ z_min > z_max) :
    mkBoundingBox3D center z_min z_max y_min y_max x_min x_max
        = .error "For each dimension, min must be no more than max!"
      ∧ mkBoundingBox3D center z_min z_max y_min y_max x_min x_max
        ≠ .error "For each dimension, center coordinate must be within min/max bounds!" := by
  have hpost :
      (BoundingBox3D.postInit
        { center := center, z_min := z_min, z_max := z_max, y_min := y_min,
          y_max := y_max, x_min := x_min, x_max := x_max })
        = .error "For each dimension, min must be no more than max!" := by
    unfold BoundingBox3D.postInit
    exact if_pos h
  unfold mkBoundingBox3D
  rw [hpost]
  exact ⟨rfl, by simp only [ne_eq, Except.error.injEq]; decide⟩

theorem inverted_bounds_message_witness :
    ((5 : ℚ) > 1 ∨ (0 : ℚ) > 1 ∨ (0 : ℚ) > 1)
      ∧ mkBoundingBox3D ⟨10, 1/2, 1/2⟩ 5 1 0 1 0 1
          = .error "For each dimension, min must be no more than max!"
      ∧ mkBoundingBox3D ⟨10, 1/2, 1/2⟩ 5 1 0 1 0 1
          ≠ .error "For each dimension, center coordinate must be within min/max bounds!" :=
  ⟨by norm_num,
   (inverted_bounds_message ⟨10, 1/2, 1/2⟩ 5 1 0 1 0 1 (by norm_num)).1,
   (inverted_bounds_message ⟨10, 1/2, 1/2⟩ 5 1 0 1 0 1 (by norm_num)).2⟩

/-- **C8.** `Point3D(z=1.0, y=2.0, x=3.0)` succeeds; construction with any NaN
coordinate fails with exactly "Cannot use a null numeric as a point coordinate!";
with any infinite (non-NaN) coordinate it fails with exactly
"Cannot use an infinite value as a point coordinate!"; the two failure messages
are distinct. -/
theorem point3d_validation :
    mkPoint3D (.finite 1) (.finite 2) (.finite 3)
        = .ok ⟨.finite 1, .finite 2, .finite 3⟩
      ∧ (∀ z y x : PyFloat, (z.isnanPy || y.isnanPy || x.isnanPy) = true →
          mkPoint3D z y x = .error "Cannot use a null numeric as a point coordinate!")
      ∧ (∀ z y x : PyFloat, (z.isnanPy || y.isnanPy || x.isnanPy) = false →
          (z.isinfPy || y.isinfPy || x.isinfPy) = true →
          mkPoint3D z y x = .error "Cannot use an infinite value as a point coordinate!")
      ∧ "Cannot use a null numeric as a point coordinate!"
          ≠ "Cannot use an infinite value as a point coordinate!" := by
  refine ⟨rfl, ?_, ?_, by decide⟩
  · intro z y x h
    unfold mkPoint3D
    rw [if_pos h]
  · intro z y x h1 h2
    unfold mkPoint3D
    rw [if_neg (by simp [h1]), if_pos h2]

theorem point3d_validation_witness :
    mkPoint3D .nan (.finite 0) (.finite 0)
        = .error "Cannot use a null numeric as a point coordinate!"
      ∧ mkPoint3D .posInf (.finite 0) (.finite 0)
        = .error "Cannot use an infinite value as a point coordinate!" :=
  ⟨point3d_validation.2.1 .nan (.finite 0) (.finite 0) (by decide),
   point3d_validation.2.2.1 .posInf (.finite 0) (.finite 0) (by decide) (by decide)⟩

/-- **C6.** `ProcessingStatus.from_filename` maps `"P0001_rois.csv"` to
`Unfiltered`, `"P0001_rois.proximity_filtered.csv"` to `ProximityFiltered`,
and `"P0001_rois.unfiltered.csv"` to no classification; any name whose first
dot-chunk does not end with `"_rois"`, or whose final extension is not exactly
`"csv"`, also yields no classification rather than an error. -/
theorem processing_status_from_filename_spec :
    ProcessingStatus.from_filename "P0001_rois.csv" = some .Unfiltered
      ∧ ProcessingStatus.from_filename "P0001_rois.proximity_filtered.csv"
          = some .ProximityFiltered
      ∧ ProcessingStatus.from_filename "P0001_rois.unfiltered.csv" = none
      ∧ (∀ fn, strEndsWith ((pySplitChar '.' fn).headD "") "_rois" = false →
          ProcessingStatus.from_filename fn = none)
      ∧ (∀ fn, (pySplitChar '.' fn).getLast? ≠ some "csv" →
          ProcessingStatus.from_filename fn = none) := by
  refine ⟨by decide, by decide, by decide, ?_, ?_⟩
  · intro fn h
    unfold ProcessingStatus.from_filename
    rw [if_pos (by rw [h]; decide)]
  · intro fn h
    unfold ProcessingStatus.from_filename
    by_cases hh : strEndsWith ((pySplitChar '.' fn).headD "") "_rois" = true
    · rw [if_neg (by rw [hh]; decide), if_pos h]
    · rw [if_pos hh]

theorem processing_status_from_filename_spec_witness :
    (strEndsWith ((pySplitChar '.' "P0001.csv").headD "") "_rois" = false
      ∧ ProcessingStatus.from_filename "P0001.csv" = none)
    ∧ ((pySplitChar '.' "P0001_rois.txt").getLast? ≠ some "csv"
      ∧ ProcessingStatus.from_filename "P0001_rois.txt" = none) :=
  ⟨⟨by decide, processing_status_from_filename_spec.2.2.2.1 "P0001.csv" (by decide)⟩,
   ⟨by decide, processing_status_from_filename_spec.2.2.2.2 "P0001_rois.txt" (by decide)⟩⟩

/-- **C9.** ROI variant construction fails fast, with the source's message, and
never silently corrects: a `MergeContributorRoi` whose id equals its
`merge_index` fails; a `ProximityRejectedRoi` with an empty neighbor set fails;
a `MergedRoi` with fewer than 2 contributors, or containing its own id among
the contributors, fails; all other constructions of these variants succeed. -/
theorem roi_construction_invariants :
    (∀ (i : ℤ) (t c : ℚ) (b : BoundingBox3D) (m : ℤ),
        (i = m → mkMergeContributorRoi i t c b m
            = .error "A MergeContributorRoi's index can't equal its merge_index")
        ∧ (i ≠ m → mkMergeContributorRoi i t c b m
            = .ok (.mergeContributor i t c b m)))
    ∧ (∀ (i : ℤ) (t c : ℚ) (b : BoundingBox3D) (ns : Finset ℤ),
        (ns = ∅ → mkProximityRejectedRoi i t c b ns
            = .error "Set of neighbors for ProximityRejectedRoi is empty")
        ∧ (ns ≠ ∅ → mkProximityRejectedRoi i t c b ns
            = .ok (.proximityRejected i t c b ns)))
    ∧ (∀ (i : ℤ) (t c : ℚ) (b : BoundingBox3D) (cs : Finset ℤ) (tid : ℤ)
          (tps : Finset ℤ) (nn : ℤ),
        (cs.card < 2 → mkMergedRoi i t c b cs tid tps nn
            = .error ("A MergedRoi must have at least 2 contributors, got "
                ++ toString cs.card))
        ∧ (2 ≤ cs.card → i ∈ cs → mkMergedRoi i t c b cs tid tps nn
            = .error "A MergedRoi's index can't be in its collection of contributors")
        ∧ (2 ≤ cs.card → i ∉ cs → mkMergedRoi i t c b cs tid tps nn
            = .ok (.merged i t c b cs tid tps nn))) := by
  refine ⟨?_, ?_, ?_⟩
  · intro i t c b m
    constructor
    · intro h
      unfold mkMergeContributorRoi
      rw [if_pos h]
    · intro h
      unfold mkMergeContributorRoi
      rw [if_neg h]
  · intro i t c b ns
    constructor
    · intro h
      unfold mkProximityRejectedRoi
      rw [if_pos h]
    · intro h
      unfold mkProximityRejectedRoi
      rw [if_neg h]
  · intro i t c b cs tid tps nn
    refine ⟨?_, ?_, ?_⟩
    · intro h
      unfold mkMergedRoi
      rw [if_pos h]
    · intro h1 h2
      unfold mkMergedRoi
      rw [if_neg (by omega), if_pos h2]
    · intro h1 h2
      unfold mkMergedRoi
      rw [if_neg (by omega), if_neg h2]

theorem roi_construction_invariants_witness :
    mkMergeContributorRoi 3 0 0 sampleBox 3
        = .error "A MergeContributorRoi's index can't equal its merge_index"
      ∧ mkMergeContributorRoi 1 0 0 sampleBox 2
        = .ok (.mergeContributor 1 0 0 sampleBox 2)
      ∧ mkProximityRejectedRoi 1 0 0 sampleBox ∅
        = .error "Set of neighbors for ProximityRejectedRoi is empty"
      ∧ mkProximityRejectedRoi 1 0 0 sampleBox {7}
        = .ok (.proximityRejected 1 0 0 sampleBox {7})
      ∧ mkMergedRoi 5 0 0 sampleBox {1} 0 ∅ 1
        = .error "A MergedRoi must have at least 2 contributors, got 1"
      ∧ mkMergedRoi 5 0 0 sampleBox {1, 5} 0 ∅ 1
        = .error "A MergedRoi's index can't be in its collection of contributors"
      ∧ mkMergedRoi 5 0 0 sampleBox {1, 2} 0 ∅ 1
        = .ok (.merged 5 0 0 sampleBox {1, 2} 0 ∅ 1) :=
  ⟨(roi_construction_invariants.1 3 0 0 sampleBox 3).1 rfl,
   (roi_construction_invariants.1 1 0 0 sampleBox 2).2 (by decide),
   (roi_construction_invariants.2.1 1 0 0 sampleBox ∅).1 rfl,
   (roi_construction_invariants.2.1 1 0 0 sampleBox {7}).2 (by decide),
   by
     have h := (roi_construction_invariants.2.2 5 0 0 sampleBox {1} 0 ∅ 1).1 (by decide)
     simpa using h,
   (roi_construction_invariants.2.2 5 0 0 sampleBox {1, 5} 0 ∅ 1).2.1 (by decide) (by decide),
   (roi_construction_invariants.2.2 5 0 0 sampleBox {1, 2} 0 ∅ 1).2.2 (by decide) (by decide)⟩

/-- Counterexample to **C4** as stated: a duplicated integer in a
`mergePartners` (partner-set) cell does *not* cause parsing to fail;
`_parse_roi_ids_field` silently collapses the duplicate. -/
theorem partner_cell_duplicates_not_rejected :
    parse_roi_ids_field [("mergePartners", CellValue.str "12 12")] "mergePartners"
      = .ok {12} := by
  decide

/-- **C4 (amended).** Multi-value id cells are parsed as space-delimited
integers. For the neighbor cell (`tooCloseRois`, via `_parse_neighbors`) a
duplicated integer causes parsing to fail — in particular the cell `"12 12"`
fails — while for the partner cells (`mergePartners`/`tracePartners`, via
`_parse_roi_ids_field`) duplicates are silently collapsed into the set. -/
theorem multi_value_cell_parsing :
    parse_neighbors "12 12"
        = .error "Repeated values are present among proximal neighbors: [12, 12]"
      ∧ (∀ s values, (pySplitChar ' ' s).mapM pyInt = Except.ok values →
          ¬ values.Nodup → ∃ m, parse_neighbors s = .error m)
      ∧ (∀ s values, (pySplitChar ' ' s).mapM pyInt = Except.ok values →
          values.Nodup → parse_neighbors s = .ok values.toFinset)
      ∧ (∀ (row : Row) (key s : String) values,
          rowGet row key = .ok (.str s) →
          (pySplitChar ' ' s).mapM pyInt = Except.ok values →
          parse_roi_ids_field row key = .ok values.toFinset) := by
  refine ⟨by decide, ?_, ?_, ?_⟩
  · intro s values hparse hdup
    refine ⟨"Repeated values are present among proximal neighbors: " ++ toString values, ?_⟩
    have hlen : values.dedup.length ≠ values.length := by
      intro hlen
      exact hdup (by
        have hsub : values.dedup.Sublist values := List.dedup_sublist values
        have heq : values.dedup = values := hsub.eq_of_length hlen
        rw [← heq]
        exact List.nodup_dedup values)
    unfold parse_neighbors
    rw [hparse]
    simp [hlen]
  · intro s values hparse hnodup
    have hlen : values.dedup.length = values.length := by
      rw [List.dedup_eq_self.mpr hnodup]
    unfold parse_neighbors
    rw [hparse]
    simp [hlen]
  · intro row key s values hget hparse
    unfold parse_roi_ids_field
    rw [hget]
    dsimp only
    rw [hparse]

theorem multi_value_cell_parsing_witness :
    ((pySplitChar ' ' "3 4 3").mapM pyInt = Except.ok [3, 4, 3]
        ∧ ∃ m, parse_neighbors "3 4 3" = .error m)
      ∧ ((pySplitChar ' ' "3 4").mapM pyInt = Except.ok [3, 4]
        ∧ parse_neighbors "3 4" = .ok ([3, 4] : List ℤ).toFinset)
      ∧ (rowGet [("tracePartners", CellValue.str "8 9 8")] "tracePartners"
            = .ok (.str "8 9 8")
        ∧ parse_roi_ids_field [("tracePartners", CellValue.str "8 9 8")] "tracePartners"
            = .ok ([8, 9, 8] : List ℤ).toFinset) :=
  ⟨⟨by decide, multi_value_cell_parsing.2.1 "3 4 3" [3, 4, 3] (by decide) (by decide)⟩,
   ⟨by decide, multi_value_cell_parsing.2.2.1 "3 4" [3, 4] (by decide) (by decide)⟩,
   ⟨by decide, multi_value_cell_parsing.2.2.2 [("tracePartners", CellValue.str "8 9 8")]
      "tracePartners" "8 9 8" [8, 9, 8] (by decide) (by decide)⟩⟩

/-- Success inversion for `Except` bind. -/
lemma exceptBind_ok {α β : Type} {x : Except String α} {f : α → Except String β} {b : β}
    (h : x >>= f = .ok b) : ∃ a, x = .ok a ∧ f a = .ok b := by
  cases x with
  | error e => exact absurd h (by simp [Bind.bind, Except.bind])
  | ok a => exact ⟨a, rfl, by simpa [Bind.bind, Except.bind] using h⟩

/-- One layer is emitted per non-empty bucket, in order. -/
lemma layers_of_buckets_length (env : Env) (bs : List (RoiTag × List Roi)) :
    (layers_of_buckets env bs).length = (bs.filter (fun b => !b.2.isEmpty)).length := by
  unfold layers_of_buckets
  induction bs with
  | nil => rfl
  | cons b rest ih =>
    obtain ⟨tag, rois⟩ := b
    cases rois with
    | nil => simpa [List.filterMap_cons, List.filter_cons] using ih
    | cons r rs => simpa [List.filterMap_cons, List.filter_cons] using ih

lemma parse_time_channel_box_trio_not_ok (row : Row) (x : ℚ × ℚ × BoundingBox3D) :
    parse_time_channel_box_trio row ≠ .ok x := by
  intro h
  unfold parse_time_channel_box_trio at h
  obtain ⟨_, -, h⟩ := exceptBind_ok h
  obtain ⟨_, -, h⟩ := exceptBind_ok h
  obtain ⟨_, -, h⟩ := exceptBind_ok h
  obtain ⟨_, -, h⟩ := exceptBind_ok h
  obtain ⟨_, -, h⟩ := exceptBind_ok h
  obtain ⟨_, -, h⟩ := exceptBind_ok h
  obtain ⟨_, -, h⟩ := exceptBind_ok h
  obtain ⟨_, -, h⟩ := exceptBind_ok h
  obtain ⟨_, -, h⟩ := exceptBind_ok h
  obtain ⟨_, -, h⟩ := exceptBind_ok h
  obtain ⟨_, -, h⟩ := exceptBind_ok h
  exact absurd h (by simp)

lemma parse_merge_contributor_record_not_ok (row : Row) (r : Roi) :
    parse_merge_contributor_record row ≠ .ok r := by
  intro h
  unfold parse_merge_contributor_record at h
  obtain ⟨_, -, h⟩ := exceptBind_ok h
  obtain ⟨rawMerge, -, h⟩ := exceptBind_ok h
  dsimp only at h
  cases rawMerge <;>
    (dsimp only at h
     obtain ⟨_, -, h⟩ := exceptBind_ok h
     obtain ⟨tcb, htcb, -⟩ := exceptBind_ok h
     exact parse_time_channel_box_trio_not_ok row tcb htcb)

lemma parse_nucleus_labeled_record_not_ok (row : Row) (r : NucleusLabeledRecord) :
    parse_nucleus_labeled_record row ≠ .ok r := by
  intro h
  unfold parse_nucleus_labeled_record at h
  obtain ⟨_, -, h⟩ := exceptBind_ok h
  obtain ⟨_, -, h⟩ := exceptBind_ok h
  obtain ⟨_, -, h⟩ := exceptBind_ok h
  obtain ⟨_, -, h⟩ := exceptBind_ok h
  obtain ⟨_, -, h⟩ := exceptBind_ok h
  obtain ⟨tcb, htcb, -⟩ := exceptBind_ok h
  exact parse_time_channel_box_trio_not_ok row tcb htcb

lemma parse_nucleus_labeled_row_not_ok (row : Row) (r : Roi) :
    parse_nucleus_labeled_row row ≠ .ok r := by
  intro h
  unfold parse_nucleus_labeled_row at h
  obtain ⟨rec0, hrec, -⟩ := exceptBind_ok h
  exact parse_nucleus_labeled_record_not_ok row rec0 hrec

lemma parse_proximity_rejects_row_not_ok (row : Row)
    (x : ℤ × Finset ℤ × ℚ × ℚ × BoundingBox3D) :
    parse_proximity_rejects_row row ≠ .ok x := by
  intro h
  unfold parse_proximity_rejects_row at h
  obtain ⟨_, -, h⟩ := exceptBind_ok h
  obtain ⟨_, -, h⟩ := exceptBind_ok h
  obtain ⟨_, -, h⟩ := exceptBind_ok h
  obtain ⟨tcb, htcb, -⟩ := exceptBind_ok h
  exact parse_time_channel_box_trio_not_ok row tcb htcb

/-- A `mapM` of a never-succeeding parser succeeds only on the empty list. -/
lemma mapM_ok_of_never {α β : Type} (f : α → Except String β)
    (hf : ∀ a b, f a ≠ .ok b) :
    ∀ (l : List α) (rs : List β), l.mapM f = .ok rs → l = [] ∧ rs = [] := by
  intro l rs h
  cases l with
  | nil =>
    rw [List.mapM_nil] at h
    simp only [pure, Except.pure] at h
    exact ⟨rfl, (Except.ok.inj h).symm⟩
  | cons a l =>
    rw [List.mapM_cons] at h
    obtain ⟨b, hb, -⟩ := exceptBind_ok h
    exact absurd hb (hf a b)

/-- Every bucket list a classified file can successfully produce has only
empty buckets: the keyword `TypeError` in `_parse_time_channel_box_trio`
kills every data row of every content type. -/
lemma bucketsOfFile_ok_empty (ke : InputFileContentType × DirEntry)
    (bs : List (RoiTag × List Roi)) (h : bucketsOfFile ke = .ok bs) :
    ∀ b ∈ bs, b.2 = ([] : List Roi) := by
  obtain ⟨k, e⟩ := ke
  cases k with
  | MergeContributors =>
    unfold bucketsOfFile at h
    dsimp only at h
    cases ht : e.table with
    | none =>
      rw [ht] at h
      have hb : [(RoiTag.mergeContributor, ([] : List Roi))] = bs := Except.ok.inj h
      subst hb
      simp
    | some rows =>
      rw [ht] at h
      dsimp only at h
      cases hm : rows.mapM parse_merge_contributor_record with
      | error e2 => rw [hm] at h; exact absurd h (by simp)
      | ok rs =>
        rw [hm] at h
        obtain ⟨-, hrs⟩ :=
          mapM_ok_of_never parse_merge_contributor_record
            parse_merge_contributor_record_not_ok rows rs hm
        subst hrs
        have hb : [(RoiTag.mergeContributor, ([] : List Roi))] = bs := Except.ok.inj h
        subst hb
        simp
  | NucleiLabeled =>
    unfold bucketsOfFile at h
    dsimp only at h
    cases hp : parse_non_contributor_non_proximal_rois e.table with
    | error e2 => rw [hp] at h; exact absurd h (by simp)
    | ok rois =>
      rw [hp] at h
      have hnil : rois = [] := by
        unfold parse_non_contributor_non_proximal_rois at hp
        cases ht : e.table with
        | none => rw [ht] at hp; exact (Except.ok.inj hp).symm
        | some rows =>
          rw [ht] at hp
          exact (mapM_ok_of_never parse_nucleus_labeled_row
            parse_nucleus_labeled_row_not_ok rows rois hp).2
      subst hnil
      have hb : rois_by_type [] = bs := Except.ok.inj h
      subst hb
      simp [rois_by_type]
  | ProximityRejects =>
    unfold bucketsOfFile at h
    dsimp only at h
    cases hp : parse_proximity_rejects e.table with
    | error e2 => rw [hp] at h; exact absurd h (by simp)
    | ok tuples =>
      rw [hp] at h
      dsimp only at h
      have hnil : tuples = [] := by
        unfold parse_proximity_rejects at hp
        cases ht : e.table with
        | none => rw [ht] at hp; exact (Except.ok.inj hp).symm
        | some rows =>
          rw [ht] at hp
          exact (mapM_ok_of_never parse_proximity_rejects_row
            parse_proximity_rejects_row_not_ok rows tuples hp).2
      subst hnil
      rw [List.mapM_nil] at h
      simp only [pure, Except.pure] at h
      cases hm : ([] : List Roi) with
      | nil =>
        have hb : [(RoiTag.proximityRejected, ([] : List Roi))] = bs := Except.ok.inj h
        subst hb
        simp
      | cons r rs => exact absurd hm (by simp)

lemma mapM_bucketsOfFile_empty :
    ∀ (l : List (InputFileContentType × DirEntry))
      (bls : List (List (RoiTag × List Roi))),
      l.mapM bucketsOfFile = .ok bls →
      ∀ bs ∈ bls, ∀ b ∈ bs, b.2 = ([] : List Roi) := by
  intro l
  induction l with
  | nil =>
    intro bls h
    rw [List.mapM_nil] at h
    simp only [pure, Except.pure] at h
    have hb : ([] : List (List (RoiTag × List Roi))) = bls := Except.ok.inj h
    subst hb
    simp
  | cons ke rest ih =>
    intro bls h
    rw [List.mapM_cons] at h
    obtain ⟨bs0, hbs0, h⟩ := exceptBind_ok h
    obtain ⟨bls0, hbls0, h⟩ := exceptBind_ok h
    simp only [pure, Except.pure] at h
    have hb : bs0 :: bls0 = bls := Except.ok.inj h
    subst hb
    intro bs hbs b hbmem
    rcases List.mem_cons.mp hbs with rfl | hmem
    · exact bucketsOfFile_ok_empty ke bs hbs0 b hbmem
    · exact ih bls0 hbls0 bs hmem b hbmem

lemma layers_of_buckets_nil (env : Env) (bs : List (RoiTag × List Roi))
    (h : ∀ b ∈ bs, b.2 = ([] : List Roi)) : layers_of_buckets env bs = [] := by
  unfold layers_of_buckets
  rw [List.filterMap_eq_nil_iff]
  intro b hb
  have hb2 := h b hb
  simp [hb2]

lemma flatten_layers_nil (env : Env) :
    ∀ (bls : List (List (RoiTag × List Roi))),
      (∀ bs ∈ bls, ∀ b ∈ bs, b.2 = ([] : List Roi)) →
      ((bls.map (layers_of_buckets env)).flatten : List Layer) = [] := by
  intro bls
  induction bls with
  | nil => intro _; rfl
  | cons bs rest ih =>
    intro h
    rw [List.map_cons, List.flatten_cons,
      layers_of_buckets_nil env bs (h bs (by simp)), List.nil_append]
    exact ih (fun bs2 hb2 b hb => h bs2 (by simp [hb2]) b hb)

/-- **C10.** The probe counts unclassifiable plausible input files as their
own category: any directory whose plausible files include two or more that
classify to no content type makes `get_reader` return `None`. -/
theorem get_reader_rejects_unclassifiable_pair (entries : List DirEntry)
    (h : 2 ≤ (probeKinds entries).count (none : Option InputFileContentType)) :
    get_reader entries = none := by
  unfold get_reader
  rw [if_neg]
  intro hp
  unfold probe_ok at hp
  rw [List.all_eq_true] at hp
  have hmem : (none : Option InputFileContentType) ∈ probeKinds entries := by
    by_contra hnm
    rw [List.count_eq_zero_of_not_mem hnm] at h
    omega
  have h1 := hp none hmem
  rw [beq_iff_eq] at h1
  omega

theorem get_reader_rejects_unclassifiable_pair_witness :
    2 ≤ (probeKinds uncPairDir).count (none : Option InputFileContentType)
      ∧ (probeKinds uncPairDir).count (some InputFileContentType.MergeContributors) = 1
      ∧ (probeKinds uncPairDir).count (some InputFileContentType.ProximityRejects) = 1
      ∧ (probeKinds uncPairDir).count (some InputFileContentType.NucleiLabeled) = 1
      ∧ get_reader uncPairDir = none :=
  ⟨by decide, by decide, by decide, by decide,
   get_reader_rejects_unclassifiable_pair uncPairDir (by decide)⟩

/-- Counterexample to **C3** as stated: a directory that is *missing* two of
the three required content types (it holds only a merge-contributors file)
still yields a reader — `get_reader` does not return `None` for missing
content types. -/
theorem get_reader_missing_type_counterexample :
    (probeKinds soloMergeDir).count (some InputFileContentType.ProximityRejects) = 0
      ∧ (probeKinds soloMergeDir).count (some InputFileContentType.NucleiLabeled) = 0
      ∧ get_reader soloMergeDir = some build_layers := by
  refine ⟨by decide, by decide, ?_⟩
  unfold get_reader
  rw [if_pos (by decide)]

/-- **C3 (amended).** `get_reader` returns a reader exactly when every
classification category among the directory's plausible input files (the
unclassifiable category included) holds exactly one file; in particular two
plausible files of the same content type force `None`, but a *missing*
content type does not. The returned reader emits one layer per non-empty
ROI-type bucket — and, because the `BoundingBox3D(zMin=..., ...)` call of
`_parse_time_channel_box_trio` raises `TypeError` on every data row (the
dataclass fields are `z_min, ...`), every bucket a successful build produces
is empty, so a successful read always yields zero layers. -/
theorem get_reader_probe_and_layer_buckets :
    (∀ entries, probe_ok entries = true → get_reader entries = some build_layers)
      ∧ (∀ entries (k : InputFileContentType),
          2 ≤ (probeKinds entries).count (some k) → get_reader entries = none)
      ∧ (∀ (env : Env) entries fbk bucketLists layers,
          file_by_kind entries = .ok fbk →
          fbk.mapM bucketsOfFile = .ok bucketLists →
          build_layers env entries = .ok layers →
          layers.length
            = (bucketLists.map
                (fun bs => (bs.filter (fun b => !b.2.isEmpty)).length)).sum)
      ∧ (∀ (env : Env) (entries : List DirEntry) (layers : List Layer),
          build_layers env entries = .ok layers → layers = []) := by
  refine ⟨?_, ?_, ?_, ?_⟩
  · intro entries h
    unfold get_reader
    rw [if_pos h]
  · intro entries k h
    unfold get_reader
    rw [if_neg]
    intro hp
    unfold probe_ok at hp
    rw [List.all_eq_true] at hp
    have hmem : (some k) ∈ probeKinds entries := by
      by_contra hnm
      rw [List.count_eq_zero_of_not_mem hnm] at h
      omega
    have h1 := hp (some k) hmem
    rw [beq_iff_eq] at h1
    omega
  · intro env entries fbk bucketLists layers h1 h2 h3
    unfold build_layers at h3
    rw [h1] at h3
    dsimp only at h3
    rw [h2] at h3
    dsimp only at h3
    have hl : (bucketLists.map (layers_of_buckets env)).flatten = layers :=
      Except.ok.inj h3
    rw [← hl, List.length_flatten, List.map_map]
    simp only [Function.comp_def, layers_of_buckets_length]
  · intro env entries layers h
    unfold build_layers at h
    cases hf : file_by_kind entries with
    | error e => rw [hf] at h; exact absurd h (by simp)
    | ok fbk =>
      rw [hf] at h
      dsimp only at h
      cases hm : fbk.mapM bucketsOfFile with
      | error e => rw [hm] at h; exact absurd h (by simp)
      | ok bls =>
        rw [hm] at h
        have hl : (bls.map (layers_of_buckets env)).flatten = layers := Except.ok.inj h
        rw [← hl]
        exact flatten_layers_nil env bls (mapM_bucketsOfFile_empty fbk bls hm)

theorem get_reader_probe_and_layer_buckets_witness :
    (probe_ok fullDir = true ∧ get_reader fullDir = some build_layers)
      ∧ (2 ≤ (probeKinds dupDir).count (some InputFileContentType.MergeContributors)
          ∧ get_reader dupDir = none)
      ∧ (file_by_kind fullDir
            = .ok [(InputFileContentType.MergeContributors, mcFile),
                   (InputFileContentType.ProximityRejects, prFile),
                   (InputFileContentType.NucleiLabeled, nlFile)]
          ∧ [(InputFileContentType.MergeContributors, mcFile),
             (InputFileContentType.ProximityRejects, prFile),
             (InputFileContentType.NucleiLabeled, nlFile)].mapM bucketsOfFile
            = .ok [[(RoiTag.mergeContributor, [])], [(RoiTag.proximityRejected, [])], []]
          ∧ build_layers ⟨false, 0⟩ fullDir = .ok []
          ∧ ([] : List Layer).length
            = ([[(RoiTag.mergeContributor, ([] : List Roi))],
                [(RoiTag.proximityRejected, [])], []].map
                (fun bs => (bs.filter (fun b => !b.2.isEmpty)).length)).sum)
      ∧ ([] : List Layer) = [] :=
  ⟨⟨by decide, get_reader_probe_and_layer_buckets.1 fullDir (by decide)⟩,
   ⟨by decide, get_reader_probe_and_layer_buckets.2.1 dupDir
      InputFileContentType.MergeContributors (by decide)⟩,
   ⟨by decide, by decide, by decide,
    get_reader_probe_and_layer_buckets.2.2.1 ⟨false, 0⟩ fullDir
      [(InputFileContentType.MergeContributors, mcFile),
       (InputFileContentType.ProximityRejects, prFile),
       (InputFileContentType.NucleiLabeled, nlFile)]
      [[(RoiTag.mergeContributor, [])], [(RoiTag.proximityRejected, [])], []] []
      (by decide) (by decide) (by decide)⟩,
   get_reader_probe_and_layer_buckets.2.2.2 ⟨false, 0⟩ fullDir [] (by decide)⟩

/-- **C5** (code bug). The claim describes the intended per-row dispatch of a
nucleus-labeled file, but in the source as given no row can ever be parsed
into a ROI: `_parse_time_channel_box_trio` (`reader.py` lines 480-488) calls
`BoundingBox3D(center=..., zMin=..., ..., xMax=...)` while the dataclass
declares the fields `z_min ... x_max` (`bounding_box.py` lines 64-72), so
every call raises `TypeError` — the box trio, the nucleus-labeled record and
the per-row ROI build all fail on every row, and on the complete,
well-formed row `nucRow0` the parse returns exactly that `TypeError`. -/
theorem nucleus_labeled_rows_never_parse :
    (∀ row : Row, ∃ e, parse_time_channel_box_trio row = .error e)
      ∧ (∀ row : Row, ∃ e, parse_nucleus_labeled_record row = .error e)
      ∧ (∀ row : Row, ∃ e, parse_nucleus_labeled_row row = .error e)
      ∧ parse_nucleus_labeled_record nucRow0
          = .error "TypeError: BoundingBox3D.__init__() got an unexpected keyword argument 'zMin'" := by
  refine ⟨?_, ?_, ?_, by decide⟩
  · intro row
    cases hx : parse_time_channel_box_trio row with
    | error e => exact ⟨e, rfl⟩
    | ok a => exact absurd hx (parse_time_channel_box_trio_not_ok row a)
  · intro row
    cases hx : parse_nucleus_labeled_record row with
    | error e => exact ⟨e, rfl⟩
    | ok a => exact absurd hx (parse_nucleus_labeled_record_not_ok row a)
  · intro row
    cases hx : parse_nucleus_labeled_row row with
    | error e => exact ⟨e, rfl⟩
    | ok a => exact absurd hx (parse_nucleus_labeled_row_not_ok row a)
